import Mathlib

/-!
Shallow embedding of `langchain_chat.py` (the `search_web` tool and the
`ChatbotUI.run_agent` agent loop), for checking the repository's
natural-language specification against the code.

Network effects are modelled by an explicit environment (`SearchWorld`): each
HTTP GET is an oracle that either returns a parsed response or an error
message (the raised exception's string).  HTML parsing with BeautifulSoup
does not raise on malformed input, so a fetched page is modelled directly as
its parse result: the list of `result__a` anchors for the results page, and
the list of `<p>` texts (after structural removal of script/style/nav/
header/footer) for the content page.

The Python string primitives used by the code (`strip`, `startswith`,
`split`, `in`, `urllib.parse.unquote` and friends) are modelled by
executable list-of-character functions so that every concrete instance
below evaluates by `decide`.
-/

/-- Model of Python `str.strip()`: remove leading and trailing whitespace. -/
def pyStrip (s : String) : String :=
  String.mk (((s.data.dropWhile Char.isWhitespace).reverse.dropWhile Char.isWhitespace).reverse)

/-- Model of Python `s.startswith(pre)`. -/
def pyStartsWith (s pre : String) : Bool :=
  pre.data.isPrefixOf s.data

/-- If `sep` is a prefix of `l`, the remainder of `l` after it. -/
def dropSepPrefix (sep l : List Char) : Option (List Char) :=
  match sep, l with
  | [], l => some l
  | _ :: _, [] => none
  | c :: sep2, d :: l2 => if c = d then dropSepPrefix sep2 l2 else none

/-- Scan `l` splitting at each leftmost occurrence of the nonempty separator
`sep`; `acc` is the current token reversed, `fuel` bounds the recursion (one
unit per consumed character, so `l.length` suffices). -/
def splitCharsAux (sep : List Char) : Nat → List Char → List Char → List (List Char)
  | 0, l, acc => [acc.reverse ++ l]
  | _ + 1, [], acc => [acc.reverse]
  | fuel + 1, c :: rest, acc =>
    match dropSepPrefix sep (c :: rest) with
    | some rest2 => acc.reverse :: splitCharsAux sep fuel rest2 []
    | none => splitCharsAux sep fuel rest (c :: acc)

/-- Model of Python `s.split(sep)` for a nonempty separator (also the model
of `str.partition`-style leftmost, non-overlapping matching). -/
def pySplitOn (s sep : String) : List String :=
  (splitCharsAux sep.data s.data.length s.data []).map String.mk

/-- Model of Python `pat in s` (substring test, for nonempty `pat`). -/
def strContains (s pat : String) : Bool :=
  (pySplitOn s pat).length != 1

/-- Value of a hex digit character, `none` if not a hex digit
(used by the model of `urllib.parse.unquote`). -/
def hexVal (c : Char) : Option Nat :=
  if '0' ≤ c ∧ c ≤ '9' then some (c.toNat - '0'.toNat)
  else if 'a' ≤ c ∧ c ≤ 'f' then some (c.toNat - 'a'.toNat + 10)
  else if 'A' ≤ c ∧ c ≤ 'F' then some (c.toNat - 'A'.toNat + 10)
  else none

/-- Percent-decoding on the character list: `%XY` with two hex digits becomes
the character of code `16*X + Y`; an invalid escape is left as-is, as in
`urllib.parse.unquote`.  Bytes are mapped to characters directly
(Latin-1 view); multi-byte UTF-8 escape sequences are outside this model,
and no input used below contains them.  `fuel` bounds the recursion (one
unit per consumed character, so the list's length suffices). -/
def unquoteCharsAux : Nat → List Char → List Char
  | 0, l => l
  | _ + 1, [] => []
  | fuel + 1, c :: rest =>
    if c = '%' then
      match rest with
      | a :: b :: rest2 =>
        match hexVal a, hexVal b with
        | some ha, some hb => Char.ofNat (16 * ha + hb) :: unquoteCharsAux fuel rest2
        | _, _ => c :: unquoteCharsAux fuel rest
      | _ => c :: unquoteCharsAux fuel rest
    else c :: unquoteCharsAux fuel rest

/-- Model of `urllib.parse.unquote`. -/
def pyUnquote (s : String) : String :=
  String.mk (unquoteCharsAux s.data.length s.data)

/-- Model of the value decoding done by `urllib.parse.parse_qsl`:
replace `+` by a space (a single-character replacement, modelled as a map),
then percent-decode. -/
def pyUnquotePlus (s : String) : String :=
  pyUnquote (String.mk (s.data.map fun c => if c = '+' then ' ' else c))

/-- Model of the query extraction performed by `urllib.parse.urlparse`:
the fragment (everything from the first `#`) is removed first, then the
query is everything after the first `?` of the remainder (empty if none). -/
def pyUrlQuery (url : String) : String :=
  let beforeFrag :=
    match pySplitOn url "#" with
    | [] => url
    | h :: _ => h
  match pySplitOn beforeFrag "?" with
  | [] => ""
  | [_] => ""
  | _ :: rest => String.intercalate "?" rest

/-- Model of `urllib.parse.parse_qs` (as an ordered association list; the
Python dict's `params[k][0]` is the first pair with key `k`).  Defaults of
Python 3: pairs split on `&`, a pair without `=` or with an empty raw value
is skipped (`keep_blank_values=False`), names and values decoded with
`unquote_plus`. -/
def pyParseQsl (qs : String) : List (String × String) :=
  (pySplitOn qs "&").filterMap fun pair =>
    match pySplitOn pair "=" with
    | [] => none
    | [_] => none
    | n :: rest =>
      let v := String.intercalate "=" rest
      if v = "" then none
      else some (pyUnquotePlus n, pyUnquotePlus v)

/-- Lines 34-41 of `langchain_chat.py`: the DuckDuckGo redirect extraction.
If the href contains `uddg=`, the URL (prefixed with `https:` when it does
not start with `http`) is parsed, and if its query has a `uddg` parameter,
the result is that parameter's first value decoded once more with
`unquote`.  Returns `none` when no rewrite happens. -/
def uddgExtract (first_url : String) : Option String :=
  if strContains first_url "uddg=" then
    let toParse := if pyStartsWith first_url "http" then first_url else "https:" ++ first_url
    let params := pyParseQsl (pyUrlQuery toParse)
    match params.find? (fun p => p.1 == "uddg") with
    | some p => some (pyUnquote p.2)
    | none => none
  else none

/-- Lines 34-47 of `langchain_chat.py`: redirect extraction followed by the
relative-URL fixes.  Note the fixes are applied to the result of the
redirect extraction as well, not only to hrefs without a redirect
parameter. -/
def normalizeHref (href : String) : String :=
  let first_url := (uddgExtract href).getD href
  if pyStartsWith first_url "//" then "https:" ++ first_url
  else if pyStartsWith first_url "/" then "https://duckduckgo.com" ++ first_url
  else first_url

/-- Lines 66-72 of `langchain_chat.py`: strip the first 8 paragraph texts,
keep those longer than 50 characters, join with a single space. -/
def joinedParagraphs (paragraphs : List String) : String :=
  String.intercalate " " (((paragraphs.take 8).map pyStrip).filter fun t => decide (t.length > 50))

/-- Lines 66-77 of `langchain_chat.py`: the content extraction, including the
truncation `content[:1500] + "..."` when the joined text exceeds 1500
characters (Python slicing is modelled as taking the first 1500
characters). -/
def extractContent (paragraphs : List String) : String :=
  let content := joinedParagraphs paragraphs
  if content.length > 1500 then String.mk (content.data.take 1500) ++ "..." else content

/-- One anchor element of the search-results page: its `href` attribute and
its `get_text()` value. -/
structure Anchor where
  href : String
  text : String
deriving DecidableEq, Repr

/-- Parsed response to the first GET (the results page): the HTTP status code
and the `a.result__a` anchors in document order. -/
structure ResultsResponse where
  status : Nat
  links : List Anchor
deriving DecidableEq, Repr

/-- Parsed response to the second GET (the content page): the HTTP status code
and the `<p>` texts remaining after script/style/nav/header/footer removal,
in document order. -/
structure PageResponse where
  status : Nat
  paragraphs : List String
deriving DecidableEq, Repr

/-- The network environment of one `search_web` invocation: the outcome of
the results-page GET, and the outcome of the content GET as a function of
the URL fetched.  An `error` value is the raised exception's message. -/
structure SearchWorld where
  first : Except String ResultsResponse
  second : String → Except String PageResponse

/-- Lines 11-93 of `langchain_chat.py`: the `search_web` tool.  The outer
`try` covers the first fetch (its failure yields `"Search failed: ..."`),
the inner `try` covers the second fetch (its failure falls back to the
titles list).  `result_links` is `find_all(..., limit=3)`; the Python
condition `content and len(content) > 100` is kept verbatim. -/
def search_web (w : SearchWorld) (query : String) : String :=
  match w.first with
  | Except.error e => "Search failed: " ++ e
  | Except.ok search_resp =>
    match search_resp.links.take 3 with
    | [] => "No results found"
    | first_link :: rest =>
      let result_links := first_link :: rest
      let first_title := pyStrip first_link.text
      let first_url := normalizeHref first_link.href
      match w.second first_url with
      | Except.error _ =>
        "Search results: " ++ String.intercalate " | " (result_links.map fun l => pyStrip l.text)
      | Except.ok page_resp =>
        let content := extractContent page_resp.paragraphs
        if content ≠ "" ∧ content.length > 100 then
          "Source: " ++ first_title ++ "\n\n" ++ content
        else
          "Search results: " ++ String.intercalate " | " (result_links.map fun l => pyStrip l.text)

/-- Argument payload of a tool call as the code inspects it
(`isinstance(args, dict)`): either a mapping (keys unique) or a plain
value, rendered as a string.  Python values other than `dict` and `str`
would flow through the non-mapping branch the same way. -/
inductive ToolArgs where
  | dict (entries : List (String × String))
  | str (value : String)
deriving DecidableEq, Repr

/-- One entry of `response.tool_calls`: the fields `name`, `args`, `id`
read by `run_agent`. -/
structure ToolCall where
  name : String
  args : ToolArgs
  id : String
deriving DecidableEq, Repr

/-- A model response: text content plus the structured `tool_calls` list
(`AIMessage` always has the attribute, so `hasattr` is always true). -/
structure AIResponse where
  content : String
  tool_calls : List ToolCall
deriving DecidableEq, Repr

/-- A message of the conversation: `HumanMessage`, the appended `AIMessage`
response, or a `ToolMessage` carrying a result and its `tool_call_id`. -/
inductive Message where
  | humanMessage (content : String)
  | aiMessage (response : AIResponse)
  | toolMessage (content : String) (tool_call_id : String)
deriving DecidableEq, Repr

/-- Lines 134-140 of `langchain_chat.py`: extract the query from a tool
call's `args` — `args.get('query', '')` when it is a mapping, the value
itself otherwise. -/
def getQuery : ToolArgs → String
  | ToolArgs.dict entries => ((entries.find? fun p => p.1 == "query").map Prod.snd).getD ""
  | ToolArgs.str v => v

/-- Lines 130-151 of `langchain_chat.py`: the `for tool_call in
response.tool_calls` loop.  A call named `search_web` runs the tool on its
extracted query and appends a `ToolMessage` with the result and the call's
id; a call with any other name is skipped (no message appended). -/
def execToolCalls (tool : String → String) (messages : List Message)
    (tool_calls : List ToolCall) : List Message :=
  tool_calls.foldl
    (fun ms tc =>
      if tc.name == "search_web" then
        ms ++ [Message.toolMessage (tool (getQuery tc.args)) tc.id]
      else ms)
    messages

/-- Lines 115-158 of `langchain_chat.py`: the body of `run_agent`,
by remaining iterations of `for i in range(max_iterations)`.  The model
service is the oracle `llm`, the search tool (`search_web.func`) is the
oracle `tool`.  The `Nat` component instruments the otherwise unchanged
control flow with the number of `llm.invoke` calls performed, so that the
iteration bound can be stated; the `String` component is the returned
value.  The Python loop tests `if ... and response.tool_calls:` and
returns in the `else` branch; the branches appear here in the opposite
order (`isEmpty` first), with the same semantics. -/
def runAgentFrom (llm : List Message → AIResponse) (tool : String → String) :
    Nat → List Message → String × Nat
  | 0, _ => ("Max iterations reached", 0)
  | n + 1, messages =>
    let response := llm messages
    let messages1 := messages ++ [Message.aiMessage response]
    if response.tool_calls.isEmpty then
      (response.content, 1)
    else
      let messages2 := execToolCalls tool messages1 response.tool_calls
      let r := runAgentFrom llm tool n messages2
      (r.1, r.2 + 1)

/-- Line 113 of `langchain_chat.py`. -/
def max_iterations : Nat := 5

/-- Lines 111-158 of `langchain_chat.py`: `run_agent`'s returned string. -/
def run_agent (llm : List Message → AIResponse) (tool : String → String)
    (messages : List Message) : String :=
  (runAgentFrom llm tool max_iterations messages).1

/-- Whether a `ToolMessage` occurs in the conversation (used by the concrete
model oracles below to react to an executed tool). -/
def hasToolMessage (ms : List Message) : Bool :=
  ms.any fun m =>
    match m with
    | Message.toolMessage _ _ => true
    | _ => false

/-- The model oracle used for counterexample C6: structured tool-call field
always empty, free text shaped like a tool call; once a tool result is in
the conversation it would answer differently. -/
def freeTextToolCall : String :=
  "\x7b\"name\": \"search_web\", \"parameters\": \x7b\"query\": \"rain in Paris\"\x7d\x7d"

def llmFreeText : List Message → AIResponse := fun ms =>
  if hasToolMessage ms then ⟨"SEARCHED", []⟩ else ⟨freeTextToolCall, []⟩

/-- Model oracle that requests one search, then answers once a tool result
is in the conversation. -/
def llmSearchThenAnswer : List Message → AIResponse := fun ms =>
  if hasToolMessage ms then ⟨"ANSWER", []⟩
  else ⟨"", [⟨"search_web", ToolArgs.dict [("query", "w")], "id1"⟩]⟩

/-- A network environment whose first fetch raises. -/
def failWorld : SearchWorld := ⟨Except.error "timeout", fun _ => Except.error "x"⟩

/-- Concrete results anchor, content page and environment for witnesses. -/
def witnessAnchor : Anchor := ⟨"https://example.com/a", " Title One "⟩

def witnessPage : PageResponse := ⟨200, [String.mk (List.replicate 150 'b')]⟩

def witnessWorld : SearchWorld :=
  ⟨Except.ok ⟨200, [witnessAnchor]⟩, fun _ => Except.ok witnessPage⟩

/-- Eight 200-character paragraphs: their joined text exceeds 1500
characters. -/
def longParagraphs : List String := List.replicate 8 (String.mk (List.replicate 200 'a'))

/-- Claim C1: for every network environment and query, `search_web` returns a
string of one of its four result shapes (it is a total function, so no
exception crosses its boundary), and when the first fetch raises the result
is the string `"Search failed: "` followed by the exception's message. -/
theorem search_web_never_raises (w : SearchWorld) (q : String) :
    ((∃ e, search_web w q = "Search failed: " ++ e) ∨
      search_web w q = "No results found" ∨
      (∃ t c, search_web w q = "Source: " ++ t ++ "\n\n" ++ c) ∨
      (∃ ts, search_web w q = "Search results: " ++ ts))
    ∧ (∀ e, w.first = Except.error e → search_web w q = "Search failed: " ++ e) := by
  obtain ⟨f, sec⟩ := w
  constructor
  · cases f with
    | error e => exact Or.inl ⟨e, rfl⟩
    | ok resp =>
      cases h : resp.links.take 3 with
      | nil =>
        refine Or.inr (Or.inl ?_)
        simp [search_web, h]
      | cons l ls =>
        cases h2 : sec (normalizeHref l.href) with
        | error e2 =>
          have hv : search_web ⟨Except.ok resp, sec⟩ q =
              "Search results: " ++ String.intercalate " | " ((l :: ls).map fun a => pyStrip a.text) := by
            simp [search_web, h, h2]
          exact Or.inr (Or.inr (Or.inr ⟨_, hv⟩))
        | ok page =>
          by_cases h3 : extractContent page.paragraphs ≠ "" ∧ (extractContent page.paragraphs).length > 100
          · have hv : search_web ⟨Except.ok resp, sec⟩ q =
                "Source: " ++ pyStrip l.text ++ "\n\n" ++ extractContent page.paragraphs := by
              simp [search_web, h, h2, h3]
            exact Or.inr (Or.inr (Or.inl ⟨_, _, hv⟩))
          · have hv : search_web ⟨Except.ok resp, sec⟩ q =
                "Search results: " ++ String.intercalate " | " ((l :: ls).map fun a => pyStrip a.text) := by
              simp [search_web, h, h2, h3]
            exact Or.inr (Or.inr (Or.inr ⟨_, hv⟩))
  · intro e he
    cases f with
    | error e2 => cases he; rfl
    | ok resp => cases he

/-- Claim C1 witness: a first fetch failing with message `"timeout"` yields
the concrete string `"Search failed: timeout"`. -/
theorem search_web_never_raises_witness :
    search_web failWorld "q" = "Search failed: timeout" :=
  (search_web_never_raises failWorld "q").2 "timeout" rfl

/-- Claim C2: when the first fetch succeeds, the result of `search_web` is
determined by the fallback ladder: no result anchors → `"No results
found"`; otherwise, second fetch succeeded and extracted content longer
than 100 characters → `"Source: {title}\n\n{content}"` with the first
anchor's stripped title; otherwise (extraction too short or second fetch
failed) → `"Search results: "` followed by the up-to-3 anchor titles
joined by `" | "`. -/
theorem search_web_fallback_ladder (w : SearchWorld) (q : String) (r : ResultsResponse)
    (hw : w.first = Except.ok r) :
    (r.links.take 3 = [] → search_web w q = "No results found")
    ∧ (∀ l ls, r.links.take 3 = l :: ls →
        (∀ page, w.second (normalizeHref l.href) = Except.ok page →
            ((extractContent page.paragraphs).length > 100 →
              search_web w q =
                "Source: " ++ pyStrip l.text ++ "\n\n" ++ extractContent page.paragraphs)
            ∧ ((extractContent page.paragraphs).length ≤ 100 →
              search_web w q =
                "Search results: " ++ String.intercalate " | " ((l :: ls).map fun a => pyStrip a.text)))
        ∧ (∀ e, w.second (normalizeHref l.href) = Except.error e →
            search_web w q =
              "Search results: " ++ String.intercalate " | " ((l :: ls).map fun a => pyStrip a.text))) := by
  obtain ⟨f, sec⟩ := w
  cases hw
  refine ⟨?_, ?_⟩
  · intro h
    simp [search_web, h]
  · intro l ls h
    refine ⟨?_, ?_⟩
    · intro page h2
      dsimp only at h2
      refine ⟨?_, ?_⟩
      · intro h100
        have hne : extractContent page.paragraphs ≠ "" := by
          intro hc
          rw [hc] at h100
          simp at h100
        simp [search_web, h, h2, hne, h100]
      · intro h101
        have hcond : ¬(extractContent page.paragraphs ≠ "" ∧ (extractContent page.paragraphs).length > 100) := by
          rintro ⟨-, hgt⟩
          omega
        simp [search_web, h, h2, hcond]
    · intro e h2
      dsimp only at h2
      simp [search_web, h, h2]

set_option maxRecDepth 4000 in
/-- Claim C2 witness: one anchor titled `" Title One "`, second fetch
returning one 150-character paragraph: the result is the `"Source: ..."`
branch with the stripped title. -/
theorem search_web_fallback_ladder_witness :
    search_web witnessWorld "q" =
      "Source: Title One\n\n" ++ String.mk (List.replicate 150 'b') := by
  have h := search_web_fallback_ladder witnessWorld "q" ⟨200, [witnessAnchor]⟩ rfl
  have h2 := ((h.2 witnessAnchor [] (by decide)).1 witnessPage rfl).1 (by decide)
  rw [h2]
  decide

/-- Claim C10: `search_web` never inspects the HTTP status of the
search-results response — the result is unchanged under any status code —
and with zero result anchors in the body (whatever the status, e.g. an
engine error page) the result is `"No results found"`, not a
`"Search failed: "` string. -/
theorem search_web_ignores_status (s1 s2 : Nat) (links : List Anchor)
    (second : String → Except String PageResponse) (q : String) :
    search_web ⟨Except.ok ⟨s1, links⟩, second⟩ q = search_web ⟨Except.ok ⟨s2, links⟩, second⟩ q
    ∧ (links = [] → search_web ⟨Except.ok ⟨s1, links⟩, second⟩ q = "No results found") := by
  constructor
  · rfl
  · intro h
    subst h
    rfl

/-- Claim C10 witness: a status-500 results page with no anchors yields
`"No results found"`. -/
theorem search_web_ignores_status_witness :
    search_web ⟨Except.ok ⟨500, []⟩, fun _ => Except.error "x"⟩ "q" = "No results found" :=
  (search_web_ignores_status 500 200 [] (fun _ => Except.error "x") "q").2 rfl

/-- Claim C5 counterexample: for the href
`//duckduckgo.com/l/?uddg=%2F%2Fevil.com%2Fx`, the redirect parameter is
valid and decodes to the scheme-relative URL `//evil.com/x`, but the code
does not return that decoded inner URL: it still applies the `//` fix to it
and returns `https://evil.com/x`. -/
theorem normalizeHref_counterexample :
    uddgExtract "//duckduckgo.com/l/?uddg=%2F%2Fevil.com%2Fx" = some "//evil.com/x"
    ∧ normalizeHref "//duckduckgo.com/l/?uddg=%2F%2Fevil.com%2Fx" = "https://evil.com/x"
    ∧ ("https://evil.com/x" : String) ≠ "//evil.com/x" := by
  decide

/-- Claim C5 as amended: the URL normalization is a total string function;
when the href carries a valid redirect parameter the decoded inner URL is
taken, and the scheme fixes are then applied to that decoded value (not
skipped); without a redirect parameter they are applied to the href
itself: `//`-prefixed values get `https:`, other `/`-prefixed values get
the engine's origin, anything else is unchanged. -/
theorem normalizeHref_ladder_amended (href : String) :
    (∀ d, uddgExtract href = some d →
      normalizeHref href =
        (if pyStartsWith d "//" then "https:" ++ d
         else if pyStartsWith d "/" then "https://duckduckgo.com" ++ d
         else d))
    ∧ (uddgExtract href = none →
      normalizeHref href =
        (if pyStartsWith href "//" then "https:" ++ href
         else if pyStartsWith href "/" then "https://duckduckgo.com" ++ href
         else href)) := by
  constructor
  · intro d hd
    simp [normalizeHref, hd]
  · intro hn
    simp [normalizeHref, hn]

/-- Claim C5 witness: a root-relative href without redirect parameter gets
the engine origin prefixed. -/
theorem normalizeHref_ladder_amended_witness :
    normalizeHref "/abc" = "https://duckduckgo.com/abc" := by
  have h := (normalizeHref_ladder_amended "/abc").2 (by decide)
  rw [h]
  decide

set_option maxRecDepth 40000 in
/-- Claim C4 counterexample: eight 200-character paragraphs join to 1607
characters, and the extractor's output is 1503 characters long — the
ellipsis marker `"..."` is three characters, so the claimed bound of 1501
fails. -/
theorem extractContent_length_counterexample :
    ¬ (extractContent longParagraphs).length ≤ 1501
    ∧ (extractContent longParagraphs).length = 1503 := by
  decide

/-- Claim C4 as amended: the extractor's output is at most 1503 characters
(1500 plus the three-character ellipsis marker `"..."`); when the
space-joined retained paragraphs exceed 1500 characters the output is
their truncation to exactly 1500 characters with the marker appended, and
otherwise it is the joined text unchanged. -/
theorem extractContent_truncation_amended (ps : List String) :
    (extractContent ps).length ≤ 1503
    ∧ ((joinedParagraphs ps).length > 1500 →
        extractContent ps = String.mk ((joinedParagraphs ps).data.take 1500) ++ "..."
        ∧ (extractContent ps).length = 1503)
    ∧ ((joinedParagraphs ps).length ≤ 1500 → extractContent ps = joinedParagraphs ps) := by
  have hdata : (joinedParagraphs ps).length = (joinedParagraphs ps).data.length := rfl
  by_cases h : (joinedParagraphs ps).length > 1500
  · have he : extractContent ps = String.mk ((joinedParagraphs ps).data.take 1500) ++ "..." := by
      simp [extractContent, h]
    have hlen : (extractContent ps).length = 1503 := by
      rw [he, String.length_append, String.length_mk, List.length_take]
      have h15 : (1500 : Nat) ≤ (joinedParagraphs ps).data.length := by omega
      rw [Nat.min_eq_left h15]
      decide
    refine ⟨by omega, fun _ => ⟨he, hlen⟩, fun hle => by omega⟩
  · have he : extractContent ps = joinedParagraphs ps := by
      simp [extractContent, h]
    refine ⟨by rw [he]; omega, fun hgt => absurd hgt h, fun _ => he⟩

/-- Claim C4 witness: a single 60-character paragraph is kept and returned
unchanged (the no-truncation branch). -/
theorem extractContent_truncation_amended_witness :
    extractContent [String.mk (List.replicate 60 'c')] = String.mk (List.replicate 60 'c') := by
  have h := (extractContent_truncation_amended [String.mk (List.replicate 60 'c')]).2.2 (by decide)
  rw [h]
  decide

/-- The loop at `n` remaining iterations performs at most `n` model
invocations. -/
lemma runAgentFrom_count_le (llm : List Message → AIResponse) (tool : String → String) :
    ∀ (n : Nat) (ms : List Message), (runAgentFrom llm tool n ms).2 ≤ n := by
  intro n
  induction n with
  | zero => intro ms; simp [runAgentFrom]
  | succ n ih =>
    intro ms
    by_cases h : (llm ms).tool_calls.isEmpty = true
    · simp [runAgentFrom, h]
    · have hf : (llm ms).tool_calls.isEmpty = false := by simpa using h
      simp only [runAgentFrom, hf, Bool.false_eq_true, if_false]
      exact Nat.succ_le_succ (ih _)

/-- If the model always answers with a nonempty tool-call list, the loop
exhausts its fuel and returns the fixed exhaustion message. -/
lemma runAgentFrom_exhausts (llm : List Message → AIResponse) (tool : String → String)
    (hllm : ∀ ms, (llm ms).tool_calls ≠ []) :
    ∀ (n : Nat) (ms : List Message), (runAgentFrom llm tool n ms).1 = "Max iterations reached" := by
  intro n
  induction n with
  | zero => intro ms; rfl
  | succ n ih =>
    intro ms
    have hf : (llm ms).tool_calls.isEmpty = false := by
      cases h : (llm ms).tool_calls with
      | nil => exact absurd h (hllm ms)
      | cons a l => rfl
    simp only [runAgentFrom, hf, Bool.false_eq_true, if_false]
    exact ih _

/-- Claim C3: each turn performs at most 5 model invocations (the `Nat`
component of `runAgentFrom` counts them), and when every response carries
a nonempty tool-call list — so no iteration returns a tool-call-free
response — `run_agent` returns the literal `"Max iterations reached"`
instead of a 6th iteration. -/
theorem run_agent_iteration_bound (llm : List Message → AIResponse) (tool : String → String)
    (ms : List Message) :
    (runAgentFrom llm tool max_iterations ms).2 ≤ 5
    ∧ ((∀ ms2, (llm ms2).tool_calls ≠ []) → run_agent llm tool ms = "Max iterations reached") := by
  constructor
  · exact runAgentFrom_count_le llm tool max_iterations ms
  · intro h
    exact runAgentFrom_exhausts llm tool h max_iterations ms

/-- Claim C3 witness: with a model that always requests a search, the fifth
iteration ends the turn with the exhaustion message, and at most 5
invocations happen. -/
theorem run_agent_iteration_bound_witness :
    run_agent (fun _ => ⟨"c", [⟨"search_web", ToolArgs.str "q", "1"⟩]⟩) (fun _ => "R")
      [Message.humanMessage "q"] = "Max iterations reached"
    ∧ (runAgentFrom (fun _ => ⟨"c", [⟨"search_web", ToolArgs.str "q", "1"⟩]⟩) (fun _ => "R")
        max_iterations [Message.humanMessage "q"]).2 ≤ 5 := by
  have h := run_agent_iteration_bound (fun _ => ⟨"c", [⟨"search_web", ToolArgs.str "q", "1"⟩]⟩)
    (fun _ => "R") [Message.humanMessage "q"]
  exact ⟨h.2 (fun ms2 => by simp), h.1⟩

/-- Claim C6 counterexample: the structured tool-call field is empty and the
free text is a brace-delimited mapping with `"name"` and `"parameters"`
keys, yet the controller terminates at once and returns that free text —
no repair occurs and no search is executed (with the oracle `llmFreeText`,
an executed search would have put a `ToolMessage` in the conversation and
the answer would have been `"SEARCHED"`). -/
theorem run_agent_no_repair_counterexample :
    run_agent llmFreeText (fun _ => "TOOLRESULT") [Message.humanMessage "hi"] = freeTextToolCall
    ∧ freeTextToolCall ≠ "SEARCHED" := by
  decide

/-- Claim C6 as amended: when a model response's structured tool-call field
is empty, the controller terminates the loop immediately and returns that
response's text unchanged — no free-text repair is attempted and no tool
is executed, even if the content looks like a tool call. -/
theorem run_agent_empty_tool_calls_terminates (llm : List Message → AIResponse)
    (tool : String → String) (ms : List Message) (h : (llm ms).tool_calls = []) :
    run_agent llm tool ms = (llm ms).content := by
  have hE : (llm ms).tool_calls.isEmpty = true := by rw [h]; rfl
  show (runAgentFrom llm tool (4 + 1) ms).1 = (llm ms).content
  simp [runAgentFrom, hE]

/-- Claim C6 witness: a model answering `"hello"` with no tool calls makes
the turn return `"hello"`. -/
theorem run_agent_empty_tool_calls_terminates_witness :
    run_agent (fun _ => ⟨"hello", []⟩) (fun _ => "R") [Message.humanMessage "q"] = "hello" :=
  run_agent_empty_tool_calls_terminates (fun _ => ⟨"hello", []⟩) (fun _ => "R")
    [Message.humanMessage "q"] rfl

/-- Claim C7 counterexample: with the oracle `llmSearchThenAnswer` a search
is executed in the first iteration (its result reaches the conversation,
which is why the second response is `"ANSWER"`), yet the returned value is
the bare `"ANSWER"` with no `"searching the web for: "` notice prefixed. -/
theorem run_agent_no_notice_counterexample :
    run_agent llmSearchThenAnswer (fun q => "RESULT: " ++ q) [Message.humanMessage "q"] = "ANSWER"
    ∧ pyStartsWith
        (run_agent llmSearchThenAnswer (fun q => "RESULT: " ++ q) [Message.humanMessage "q"])
        "searching the web for: " = false := by
  decide

/-- The loop's returned string is either the exhaustion message or exactly
the content of some tool-call-free model response. -/
lemma runAgentFrom_result_shape (llm : List Message → AIResponse) (tool : String → String) :
    ∀ (n : Nat) (ms : List Message),
      (runAgentFrom llm tool n ms).1 = "Max iterations reached"
      ∨ ∃ ms2, (llm ms2).tool_calls = [] ∧ (runAgentFrom llm tool n ms).1 = (llm ms2).content := by
  intro n
  induction n with
  | zero => intro ms; exact Or.inl rfl
  | succ n ih =>
    intro ms
    cases hl : (llm ms).tool_calls with
    | nil =>
      refine Or.inr ⟨ms, hl, ?_⟩
      have hE : (llm ms).tool_calls.isEmpty = true := by rw [hl]; rfl
      simp [runAgentFrom, hE]
    | cons tc tcs =>
      have hf : (llm ms).tool_calls.isEmpty = false := by rw [hl]; rfl
      simp only [runAgentFrom, hf, Bool.false_eq_true, if_false]
      exact ih _

/-- Claim C7 as amended: whatever searches were performed during the turn,
the returned value carries no accumulated search-activity prefix — it is
either the exhaustion message or the bare text of the tool-call-free
response that ended the loop. -/
theorem run_agent_returns_bare_text (llm : List Message → AIResponse) (tool : String → String)
    (ms : List Message) :
    run_agent llm tool ms = "Max iterations reached"
    ∨ ∃ ms2, (llm ms2).tool_calls = [] ∧ run_agent llm tool ms = (llm ms2).content :=
  runAgentFrom_result_shape llm tool max_iterations ms

/-- Claim C8 counterexample: a tool-call request naming `other_tool` is
ignored without failing the turn, but no `ToolCallResult` referencing its
identifier `"id9"` is ever appended — zero, not exactly one. -/
theorem execToolCalls_other_tool_counterexample :
    execToolCalls (fun _ => "R") [Message.humanMessage "q"]
        [⟨"other_tool", ToolArgs.str "x", "id9"⟩] = [Message.humanMessage "q"]
    ∧ (execToolCalls (fun _ => "R") [Message.humanMessage "q"]
        [⟨"other_tool", ToolArgs.str "x", "id9"⟩]).countP
        (fun m =>
          match m with
          | Message.toolMessage _ i => i == "id9"
          | _ => false) = 0 := by
  decide

/-- Claim C8 as amended: processing a turn's tool-call requests appends,
before the next model invocation, exactly one `ToolMessage` per request
naming `search_web` — carrying that request's identifier, in request
order — and appends nothing for a request naming any other tool, without
failing the turn. -/
theorem execToolCalls_results_amended (tool : String → String) :
    ∀ (tcs : List ToolCall) (ms : List Message),
      execToolCalls tool ms tcs =
        ms ++ (tcs.filter fun tc => tc.name == "search_web").map
          (fun tc => Message.toolMessage (tool (getQuery tc.args)) tc.id) := by
  intro tcs
  induction tcs with
  | nil => intro ms; simp [execToolCalls]
  | cons tc tcs ih =>
    intro ms
    have hstep : execToolCalls tool ms (tc :: tcs) =
        execToolCalls tool
          (if tc.name == "search_web" then
            ms ++ [Message.toolMessage (tool (getQuery tc.args)) tc.id]
          else ms) tcs := rfl
    rw [hstep]
    by_cases h : (tc.name == "search_web") = true
    · rw [if_pos h, ih, List.filter_cons]
      simp [h]
    · have hf : (tc.name == "search_web") = false := by simpa using h
      rw [if_neg h, ih, List.filter_cons]
      simp [hf]

/-- Claim C9: query extraction is total — a mapping argument yields its
`"query"` entry (the empty string when absent), a non-mapping argument is
used as the query itself — and for a `search_web` request the controller
always reaches the tool invocation, appending the `ToolMessage` built from
`getQuery` (no argument shape raises before the tool runs). -/
theorem getQuery_total_extraction (tool : String → String) (ms : List Message) (tc : ToolCall)
    (h : tc.name = "search_web") :
    execToolCalls tool ms [tc] = ms ++ [Message.toolMessage (tool (getQuery tc.args)) tc.id]
    ∧ (∀ entries, tc.args = ToolArgs.dict entries →
        getQuery tc.args = ((entries.find? fun p => p.1 == "query").map Prod.snd).getD "")
    ∧ (∀ v, tc.args = ToolArgs.str v → getQuery tc.args = v) := by
  refine ⟨?_, ?_, ?_⟩
  · have hb : (tc.name == "search_web") = true := by simp [h]
    simp only [execToolCalls, List.foldl, hb, if_true]
  · intro entries he
    rw [he]
    rfl
  · intro v he
    rw [he]
    rfl

/-- Claim C9 witness: a mapping argument with a `"query"` entry runs the
tool on that entry's value. -/
theorem getQuery_total_extraction_witness :
    execToolCalls (fun q => "R:" ++ q) []
        [⟨"search_web", ToolArgs.dict [("query", "paris")], "i1"⟩] =
      [Message.toolMessage "R:paris" "i1"] := by
  have h := getQuery_total_extraction (fun q => "R:" ++ q) []
    ⟨"search_web", ToolArgs.dict [("query", "paris")], "i1"⟩ rfl
  rw [h.1]
  decide
